import Mathlib

/-!
# Verification of the Google Maps URL resolution pipeline

Shallow embedding of `src/server/googleMapsHelper.ts` of the
`cuisine-wheel-sg` repository.  The pipeline under verification is

  `resolveAndParseMapsUrl : url -> resolve short link -> extract place info
     -> resolve place id -> fetch details -> GoogleMapsPlaceInfo`

The TypeScript code relies on a handful of JavaScript / WHATWG platform
primitives (`new URL`, `URLSearchParams.get`, `decodeURIComponent`,
`encodeURIComponent`, `String.prototype.match` with fixed regular
expressions, string truthiness).  Those primitives are modelled here over
`List Char`, with structural recursion only, so that every definition
evaluates inside the kernel (`decide` / `rfl`).

Modelling conventions:
* JavaScript numbers obtained from `parseFloat` on strings of the shape
  `-?\d+\.\d+` are modelled as exact decimals (`DecNum`); the claims under
  verification never depend on IEEE-754 rounding.
* `undefined` / `null` fields are modelled as `Option`.
* thrown exceptions are modelled with `Except`.
* network calls (`makeRequest`, `fetch`) are modelled by an oracle record
  `MapsApi`; each call either throws (`Except.error`) or returns a parsed
  response value, mirroring `src/server/_core/map.ts`'s `makeRequest`.
* JavaScript strings are UTF-16; the model works with Unicode scalar
  values (Lean `Char`).  All inputs relevant to the claims are within the
  Basic Multilingual Plane, where the two coincide.
-/

/-! ## Character helpers -/

/-- ASCII decimal digit test (JavaScript regex `\d`). -/
def isDigitCh (c : Char) : Bool :=
  '0' ≤ c && c ≤ '9'

/-- ASCII letter test. -/
def isAlphaCh (c : Char) : Bool :=
  ('a' ≤ c && c ≤ 'z') || ('A' ≤ c && c ≤ 'Z')

/-- ASCII lower-casing of a character (JavaScript `toLowerCase` restricted
to ASCII, which covers every input of interest). -/
def lowerCh (c : Char) : Char :=
  if 'A' ≤ c && c ≤ 'Z' then Char.ofNat (c.toNat + 32) else c

/-- Lower-case a character list. -/
def lowerList (l : List Char) : List Char :=
  l.map lowerCh

/-- Value of a hexadecimal digit, if any (code points 48-57 are `0`-`9`,
97-102 are `a`-`f`, 65-70 are `A`-`F`). -/
def hexVal (c : Char) : Option Nat :=
  let n := c.toNat
  if 48 ≤ n && n ≤ 57 then some (n - 48)
  else if 97 ≤ n && n ≤ 102 then some (10 + (n - 97))
  else if 65 ≤ n && n ≤ 70 then some (10 + (n - 65))
  else none

/-! ## UTF-8 decoding

`decodeURIComponent` first turns `%XX` escapes into bytes and then decodes
the resulting byte runs as UTF-8, throwing `URIError` on malformed input;
`URLSearchParams` does the same but substitutes U+FFFD on errors.  Both
decoders are implemented below with explicit fuel so that they are
structural recursions the kernel can evaluate. -/

/-- A continuation byte `10xxxxxx`. -/
def isCont (b : Nat) : Bool :=
  0x80 ≤ b && b ≤ 0xBF

/-- Strict UTF-8 decoding with fuel; `none` on malformed input. -/
def utf8DecodeFuel : Nat → List Nat → Option (List Char)
  | _, [] => some []
  | 0, _ :: _ => none
  | fuel + 1, b :: rest =>
    if b < 0x80 then
      (utf8DecodeFuel fuel rest).map (Char.ofNat b :: ·)
    else if 0xC2 ≤ b && b ≤ 0xDF then
      match rest with
      | c1 :: rest1 =>
        if isCont c1 then
          (utf8DecodeFuel fuel rest1).map (Char.ofNat ((b - 0xC0) * 64 + (c1 - 0x80)) :: ·)
        else none
      | [] => none
    else if 0xE0 ≤ b && b ≤ 0xEF then
      match rest with
      | c1 :: c2 :: rest2 =>
        let lo1 := if b == 0xE0 then 0xA0 else 0x80
        let hi1 := if b == 0xED then 0x9F else 0xBF
        if (lo1 ≤ c1 && c1 ≤ hi1) && isCont c2 then
          (utf8DecodeFuel fuel rest2).map
            (Char.ofNat ((b - 0xE0) * 4096 + (c1 - 0x80) * 64 + (c2 - 0x80)) :: ·)
        else none
      | _ => none
    else if 0xF0 ≤ b && b ≤ 0xF4 then
      match rest with
      | c1 :: c2 :: c3 :: rest3 =>
        let lo1 := if b == 0xF0 then 0x90 else 0x80
        let hi1 := if b == 0xF4 then 0x8F else 0xBF
        if ((lo1 ≤ c1 && c1 ≤ hi1) && isCont c2) && isCont c3 then
          (utf8DecodeFuel fuel rest3).map
            (Char.ofNat ((b - 0xF0) * 262144 + (c1 - 0x80) * 4096 + (c2 - 0x80) * 64 + (c3 - 0x80)) :: ·)
        else none
      | _ => none
    else none

/-- Strict UTF-8 decoding of a byte list. -/
def utf8Decode (bs : List Nat) : Option (List Char) :=
  utf8DecodeFuel bs.length bs

/-- Lossy UTF-8 decoding with fuel: malformed bytes yield U+FFFD. -/
def utf8DecodeLossyFuel : Nat → List Nat → List Char
  | _, [] => []
  | 0, _ :: _ => []
  | fuel + 1, b :: rest =>
    if b < 0x80 then Char.ofNat b :: utf8DecodeLossyFuel fuel rest
    else if 0xC2 ≤ b && b ≤ 0xDF then
      match rest with
      | c1 :: rest1 =>
        if isCont c1 then
          Char.ofNat ((b - 0xC0) * 64 + (c1 - 0x80)) :: utf8DecodeLossyFuel fuel rest1
        else Char.ofNat 0xFFFD :: utf8DecodeLossyFuel fuel rest
      | [] => [Char.ofNat 0xFFFD]
    else if 0xE0 ≤ b && b ≤ 0xEF then
      match rest with
      | c1 :: c2 :: rest2 =>
        let lo1 := if b == 0xE0 then 0xA0 else 0x80
        let hi1 := if b == 0xED then 0x9F else 0xBF
        if (lo1 ≤ c1 && c1 ≤ hi1) && isCont c2 then
          Char.ofNat ((b - 0xE0) * 4096 + (c1 - 0x80) * 64 + (c2 - 0x80)) ::
            utf8DecodeLossyFuel fuel rest2
        else Char.ofNat 0xFFFD :: utf8DecodeLossyFuel fuel rest
      | _ => Char.ofNat 0xFFFD :: utf8DecodeLossyFuel fuel rest
    else if 0xF0 ≤ b && b ≤ 0xF4 then
      match rest with
      | c1 :: c2 :: c3 :: rest3 =>
        let lo1 := if b == 0xF0 then 0x90 else 0x80
        let hi1 := if b == 0xF4 then 0x8F else 0xBF
        if ((lo1 ≤ c1 && c1 ≤ hi1) && isCont c2) && isCont c3 then
          Char.ofNat ((b - 0xF0) * 262144 + (c1 - 0x80) * 4096 + (c2 - 0x80) * 64 + (c3 - 0x80)) ::
            utf8DecodeLossyFuel fuel rest3
        else Char.ofNat 0xFFFD :: utf8DecodeLossyFuel fuel rest
      | _ => Char.ofNat 0xFFFD :: utf8DecodeLossyFuel fuel rest
    else Char.ofNat 0xFFFD :: utf8DecodeLossyFuel fuel rest

/-- Lossy UTF-8 decoding of a byte list. -/
def utf8DecodeLossy (bs : List Nat) : List Char :=
  utf8DecodeLossyFuel bs.length bs

/-- UTF-8 encoding of one Unicode scalar value. -/
def utf8EncodeChar (c : Char) : List Nat :=
  let n := c.toNat
  if n < 0x80 then [n]
  else if n < 0x800 then [0xC0 + n / 64, 0x80 + n % 64]
  else if n < 0x10000 then [0xE0 + n / 4096, 0x80 + n / 64 % 64, 0x80 + n % 64]
  else [0xF0 + n / 262144, 0x80 + n / 4096 % 64, 0x80 + n / 64 % 64, 0x80 + n % 64]

/-! ## Percent decoding -/

/-- A unit of a percent-encoded string: either a literal character or a
byte obtained from a `%XX` escape. -/
inductive PctUnit where
  | lit (c : Char)
  | byte (b : Nat)
deriving Repr, DecidableEq

/-- Split a character list into percent units, strictly: a `%` that is not
followed by two hexadecimal digits is an error (JavaScript
`decodeURIComponent` throws `URIError`). -/
def pctUnitsStrict : List Char → Option (List PctUnit)
  | [] => some []
  | '%' :: h1 :: h2 :: rest =>
    match hexVal h1, hexVal h2 with
    | some v1, some v2 => (pctUnitsStrict rest).map (PctUnit.byte (v1 * 16 + v2) :: ·)
    | _, _ => none
  | '%' :: rest =>
    match rest with
    | [] => none
    | [_] => none
    | _ :: _ :: _ => none
  | c :: rest => (pctUnitsStrict rest).map (PctUnit.lit c :: ·)

/-- Split a character list into percent units, leniently: a malformed `%`
escape stays literal (WHATWG `application/x-www-form-urlencoded` parsing,
used by `URLSearchParams`). -/
def pctUnitsLenient : List Char → List PctUnit
  | [] => []
  | '%' :: h1 :: h2 :: rest =>
    match hexVal h1, hexVal h2 with
    | some v1, some v2 => PctUnit.byte (v1 * 16 + v2) :: pctUnitsLenient rest
    | _, _ => PctUnit.lit '%' :: pctUnitsLenient (h1 :: h2 :: rest)
  | c :: rest => PctUnit.lit c :: pctUnitsLenient rest

/-- Decode a unit list, strict UTF-8 on each maximal byte run. -/
def decodeUnitsStrict (buf : List Nat) : List PctUnit → Option (List Char)
  | [] => utf8Decode buf.reverse
  | PctUnit.byte b :: rest => decodeUnitsStrict (b :: buf) rest
  | PctUnit.lit c :: rest => do
    let pre ← utf8Decode buf.reverse
    let tail ← decodeUnitsStrict [] rest
    pure (pre ++ c :: tail)

/-- Decode a unit list, lossy UTF-8 on each maximal byte run. -/
def decodeUnitsLossy (buf : List Nat) : List PctUnit → List Char
  | [] => utf8DecodeLossy buf.reverse
  | PctUnit.byte b :: rest => decodeUnitsLossy (b :: buf) rest
  | PctUnit.lit c :: rest =>
    utf8DecodeLossy buf.reverse ++ c :: decodeUnitsLossy [] rest

/-- Model of JavaScript `decodeURIComponent`: `none` means the builtin
throws `URIError` (malformed `%` escape or invalid UTF-8).  `+` is NOT
treated specially, exactly as in the builtin. -/
def decodeURIComponentJS (s : String) : Option String := do
  let units ← pctUnitsStrict s.data
  let cs ← decodeUnitsStrict [] units
  pure ⟨cs⟩

/-- Percent-decoding used by `URLSearchParams` values: `+` becomes a
space, malformed escapes stay literal, invalid UTF-8 becomes U+FFFD. -/
def formUrlDecode (l : List Char) : List Char :=
  decodeUnitsLossy [] (pctUnitsLenient (l.map fun c => if c == '+' then ' ' else c))

/-- Model of JavaScript `encodeURIComponent`: every character outside the
unreserved set `A-Z a-z 0-9 - _ . ! ~ * ' ( )` is replaced by the
percent-encoding of its UTF-8 bytes (upper-case hex). -/
def encodeURIComponentJS (s : String) : String :=
  let hexDigit (n : Nat) : Char :=
    if n < 10 then Char.ofNat ('0'.toNat + n) else Char.ofNat ('A'.toNat + n - 10)
  let unreserved (c : Char) : Bool :=
    isAlphaCh c || isDigitCh c ||
      (c == '-' || c == '_' || c == '.' || c == '!' || c == '~' ||
       c == '*' || c == '\x27' || c == '(' || c == ')')
  ⟨s.data.foldr (fun c acc =>
      if unreserved c then c :: acc
      else (utf8EncodeChar c).foldr (fun b a => '%' :: hexDigit (b / 16) :: hexDigit (b % 16) :: a) acc)
    []⟩

/-! ## List utilities (structural, kernel-evaluable) -/

/-- Split a character list on a separator character. -/
def splitListOn (sep : Char) : List Char → List (List Char)
  | [] => [[]]
  | c :: rest =>
    let r := splitListOn sep rest
    if c == sep then [] :: r
    else
      match r with
      | h :: t => (c :: h) :: t
      | [] => [[c]]

/-- Drop an expected literal from the front of a list, or fail. -/
def dropLit : List Char → List Char → Option (List Char)
  | [], cs => some cs
  | _ :: _, [] => none
  | p :: ps, c :: cs => if c == p then dropLit ps cs else none

/-- Try a matcher at every start position, left to right; the first
success wins.  This models the search semantics of JavaScript
`String.prototype.match` with a non-global regular expression. -/
def scanFirst {α : Type} (f : List Char → Option α) : List Char → Option α
  | [] => f []
  | cs@(_ :: rest) =>
    match f cs with
    | some r => some r
    | none => scanFirst f rest

/-- `t` is a suffix of `s` (models JavaScript `String.prototype.endsWith`). -/
def listIsSuffix (t : List Char) (s : List Char) : Bool :=
  s == t ||
    match s with
    | [] => false
    | _ :: s1 => listIsSuffix t s1

/-- `strEndsWith s t` is JavaScript `s.endsWith(t)`. -/
def strEndsWith (s t : String) : Bool :=
  listIsSuffix t.data s.data

/-- `strStartsWith s t` is JavaScript `s.startsWith(t)`. -/
def strStartsWith (s t : String) : Bool :=
  (dropLit t.data s.data).isSome

/-- `listContains s sub` models JavaScript `s.includes(sub)`. -/
def listContains (s sub : List Char) : Bool :=
  (scanFirst (fun cs => if (dropLit sub cs).isSome then some () else none) s).isSome

/-! ## The regular expressions of `extractPlaceInfoFromUrl`

The TypeScript source uses four fixed regular expressions:
  * `/data=([^&]+)/`           on the raw URL,
  * `/!3d(-?\d+\.\d+)!4d(-?\d+\.\d+)/` on the decoded data blob,
  * `/@(-?\d+\.\d+),(-?\d+\.\d+)/`     on the raw URL,
  * `/\/place\/([^/@]+)/`      on the raw URL.
Each is deterministic (no backtracking can change the outcome, because
every `+` repetition is followed by a character outside its class), so
the matchers below implement them directly: maximal-munch at each start
position, scanning start positions left to right. -/

/-- Digit run to a natural number (code point 48 is `0`). -/
def digitsToNat (l : List Char) : Nat :=
  l.foldl (fun acc c => 10 * acc + (c.toNat - 48)) 0

/-- Exact decimal number: the value `(-1)^neg * mant / 10^scale`, kept in
canonical form (`mant` not divisible by 10 unless `scale = 0`, and no
negative zero).  This models the JavaScript numbers produced by
`parseFloat` on strings matching `-?\d+\.\d+` and the coordinate numbers
of API responses; the claims never depend on IEEE-754 rounding, only on
which decimal was parsed, so the exact value is the faithful abstraction. -/
structure DecNum where
  neg : Bool
  mant : Nat
  scale : Nat
deriving Repr, DecidableEq

/-- Strip factors of 10 from the mantissa while the scale is positive. -/
def canonDecAux : Nat → Nat → Nat → Nat × Nat
  | 0, m, s => (m, s)
  | fuel + 1, m, s =>
    if s == 0 then (m, s)
    else if m % 10 == 0 then canonDecAux fuel (m / 10) (s - 1)
    else (m, s)

/-- Build a canonical `DecNum` from sign, mantissa and scale. -/
def mkDecNum (neg : Bool) (m s : Nat) : DecNum :=
  let p := canonDecAux s m s
  ⟨neg && !(p.1 == 0), p.1, p.2⟩

/-- Parse `-?\d+\.\d+` at the head of the list; returns the decimal value
(model of `parseFloat` on such a string) and the rest of the input. -/
def parseSignedDecimal (cs : List Char) : Option (DecNum × List Char) :=
  let (neg, cs1) :=
    match cs with
    | '-' :: t => (true, t)
    | _ => (false, cs)
  let ip := cs1.takeWhile isDigitCh
  let cs2 := cs1.dropWhile isDigitCh
  if ip.isEmpty then none
  else
    match cs2 with
    | '.' :: cs3 =>
      let fp := cs3.takeWhile isDigitCh
      let cs4 := cs3.dropWhile isDigitCh
      if fp.isEmpty then none
      else
        some (mkDecNum neg (digitsToNat ip * 10 ^ fp.length + digitsToNat fp) fp.length, cs4)
    | _ => none

/-- `/data=([^&]+)/` at one position: the capture group. -/
def dataBlobAt (cs : List Char) : Option (List Char) := do
  let rest ← dropLit "data=".data cs
  let cap := rest.takeWhile (fun c => !(c == '&'))
  if cap.isEmpty then none else some cap

/-- `url.match(/data=([^&]+)/)` : first capture group. -/
def dataBlobMatch (url : String) : Option String :=
  (scanFirst dataBlobAt url.data).map fun l => ⟨l⟩

/-- `/!3d(-?\d+\.\d+)!4d(-?\d+\.\d+)/` at one position. -/
def coordPairAt (cs : List Char) : Option (DecNum × DecNum) := do
  let r1 ← dropLit "!3d".data cs
  let (lat, r2) ← parseSignedDecimal r1
  let r3 ← dropLit "!4d".data r2
  let (lng, _) ← parseSignedDecimal r3
  pure (lat, lng)

/-- `s.match(/!3d(-?\d+\.\d+)!4d(-?\d+\.\d+)/)` : both captures, parsed. -/
def coordPairMatch (s : String) : Option (DecNum × DecNum) :=
  scanFirst coordPairAt s.data

/-- `/@(-?\d+\.\d+),(-?\d+\.\d+)/` at one position. -/
def viewportAt (cs : List Char) : Option (DecNum × DecNum) := do
  let r1 ← dropLit "@".data cs
  let (lat, r2) ← parseSignedDecimal r1
  let r3 ← dropLit ",".data r2
  let (lng, _) ← parseSignedDecimal r3
  pure (lat, lng)

/-- `url.match(/@(-?\d+\.\d+),(-?\d+\.\d+)/)` : both captures, parsed. -/
def viewportMatch (s : String) : Option (DecNum × DecNum) :=
  scanFirst viewportAt s.data

/-- `/\/place\/([^/@]+)/` at one position: the capture group. -/
def placeSegAt (cs : List Char) : Option (List Char) := do
  let rest ← dropLit "/place/".data cs
  let cap := rest.takeWhile (fun c => !(c == '/' || c == '@'))
  if cap.isEmpty then none else some cap

/-- `url.match(/\/place\/([^/@]+)/)` : first capture group. -/
def placeSegMatch (url : String) : Option String :=
  (scanFirst placeSegAt url.data).map fun l => ⟨l⟩

/-! ## Model of WHATWG `new URL` (the fragment the pipeline observes)

`googleMapsHelper.ts` only reads `.hostname` and `.searchParams` from
parsed URLs, so the model records the hostname and the raw query string.
Simplifications, each irrelevant to the claims under verification:
IPv6 bracket hosts and non-ASCII (IDNA/punycode) hosts are treated as
parse failures, and the port number is validated but not stored. -/

structure JSURL where
  hostname : String
  search : String
deriving Repr, DecidableEq

/-- Schemes the WHATWG standard calls special (they always take an
authority, with any run of slashes after the colon). -/
def isSpecialScheme (s : List Char) : Bool :=
  let l := lowerList s
  l == "http".data || l == "https".data || l == "ws".data ||
    l == "wss".data || l == "ftp".data || l == "file".data

/-- Forbidden domain code points (checked after percent-decoding). -/
def isForbiddenHostCh (c : Char) : Bool :=
  c.toNat ≤ 0x20 || c == '#' || c == '/' || c == ':' || c == '<' || c == '>' ||
    c == '?' || c == '@' || c == '[' || c == '\\' || c == ']' || c == '^' ||
    c == '|' || c == '%' || c.toNat ≥ 0x7F

/-- Parse an authority substring into a hostname: the userinfo (up to the
last `@`) is dropped, a digits-only port after the first `:` is validated
and dropped, percent escapes are decoded, forbidden code points rejected,
and the result lower-cased. -/
def parseHostname (auth : List Char) : Option String :=
  let hostport := (splitListOn '@' auth).getLastD []
  let hostraw := hostport.takeWhile (fun c => !(c == ':'))
  let portpart := hostport.dropWhile (fun c => !(c == ':'))
  let portOk :=
    match portpart with
    | [] => true
    | _ :: p => p.all isDigitCh
  if !portOk then none
  else
    match hostraw with
    | [] => none
    | '[' :: _ => none
    | _ =>
      let decoded := decodeUnitsLossy [] (pctUnitsLenient hostraw)
      if decoded.any isForbiddenHostCh then none
      else some ⟨lowerList decoded⟩

/-- The query component (without `?`) of a path-query-fragment suffix. -/
def extractQuery (pqf : List Char) : String :=
  match pqf.dropWhile (fun c => !(c == '?' || c == '#')) with
  | '?' :: q => ⟨q.takeWhile (fun c => !(c == '#'))⟩
  | _ => ""

/-- Model of the JavaScript `new URL(s)` constructor on an absolute URL
string, restricted to the components the pipeline observes; `none` means
the constructor throws `TypeError`. -/
def parseJSURL (s : String) : Option JSURL :=
  let cs1 := ((s.data.dropWhile (fun c => c.toNat ≤ 0x20)).reverse.dropWhile
      (fun c => c.toNat ≤ 0x20)).reverse
  let cs := cs1.filter (fun c => !(c == '\t' || c == '\n' || c == '\r'))
  let schemeCs := cs.takeWhile (fun c => !(c == ':'))
  match cs.dropWhile (fun c => !(c == ':')) with
  | ':' :: afterColon =>
    if schemeCs.isEmpty then none
    else if !(isAlphaCh (schemeCs.headD 'a') &&
        schemeCs.all (fun c => isAlphaCh c || isDigitCh c || c == '+' || c == '-' || c == '.')) then
      none
    else if isSpecialScheme schemeCs then
      let afterSlashes := afterColon.dropWhile (fun c => c == '/' || c == '\\')
      let auth := afterSlashes.takeWhile
        (fun c => !(c == '/' || c == '\\' || c == '?' || c == '#'))
      let pqf := afterSlashes.dropWhile
        (fun c => !(c == '/' || c == '\\' || c == '?' || c == '#'))
      (parseHostname auth).map fun host => ⟨host, extractQuery pqf⟩
    else
      match afterColon with
      | '/' :: '/' :: rest2 =>
        let auth := rest2.takeWhile (fun c => !(c == '/' || c == '?' || c == '#'))
        let pqf := rest2.dropWhile (fun c => !(c == '/' || c == '?' || c == '#'))
        (parseHostname auth).map fun host => ⟨host, extractQuery pqf⟩
      | _ => some ⟨"", extractQuery afterColon⟩
  | _ => none

/-- Model of `url.searchParams.get(key)`: split the query on `&`, drop
empty segments, split each segment at its first `=`, form-url-decode both
sides, and return the first value whose key matches. -/
def searchParamsGet (u : JSURL) (key : String) : Option String :=
  let segs := (splitListOn '&' u.search.data).filter (fun seg => !seg.isEmpty)
  let pairs := segs.map fun seg =>
    let k := seg.takeWhile (fun c => !(c == '='))
    let v :=
      match seg.dropWhile (fun c => !(c == '=')) with
      | [] => []
      | _ :: rest => rest
    (formUrlDecode k, formUrlDecode v)
  (pairs.find? (fun p => p.1 == key.data)).map fun p => (⟨p.2⟩ : String)


/-! ## `googleMapsHelper.ts` : data model -/

/-- JavaScript truthiness of a `string | null | undefined` value: truthy
iff present and non-empty. -/
def truthyOptStr : Option String → Bool
  | none => false
  | some s => !(s == "")

/-- `ALLOWED_MAPS_HOSTS` from the source. -/
def ALLOWED_MAPS_HOSTS : List String :=
  ["goo.gl", "maps.app.goo.gl", "google.com", "maps.google.com"]

/-- `host.replace(/^www\./, "")` : strip one leading `www.`. -/
def stripWwwDot (host : String) : String :=
  match dropLit "www.".data host.data with
  | some rest => ⟨rest⟩
  | none => host

/-- `isAllowedMapsUrl` from the source: parse the URL (a parse failure is
caught and yields `false`), strip a leading `www.` from the hostname, and
test the allow-list with exact match or `endsWith("." + h)`. -/
def isAllowedMapsUrl (url : String) : Bool :=
  match parseJSURL url with
  | none => false
  | some u =>
    let host := stripWwwDot u.hostname
    ALLOWED_MAPS_HOSTS.any fun h => host == h || strEndsWith host ("." ++ h)

/-- `isShortMapsUrl` from the source: hostname is exactly `goo.gl` or
`maps.app.goo.gl` (parse failures caught, `false`). -/
def isShortMapsUrl (url : String) : Bool :=
  match parseJSURL url with
  | none => false
  | some u => u.hostname == "goo.gl" || u.hostname == "maps.app.goo.gl"

/-- `isValidGoogleMapsUrl` from the source (the exported validator). -/
def isValidGoogleMapsUrl (url : String) : Bool :=
  isAllowedMapsUrl url

/-- Coordinates extracted from a URL (`{lat, lng}` in the source). -/
structure Coordinates where
  lat : DecNum
  lng : DecNum
deriving Repr, DecidableEq

/-- The intermediate `PlaceInfo` of `extractPlaceInfoFromUrl`; every
field is optional exactly as in the source interface. -/
structure PlaceInfo where
  placeId : Option String := none
  coordinates : Option Coordinates := none
  placeName : Option String := none
deriving Repr, DecidableEq

/-- The normalized `GoogleMapsPlaceInfo` record of the source.  The
source stores latitude and longitude as decimal strings (`String(lat)`),
and `priceLevel` as a number (an integer price tier in the Places API). -/
structure GoogleMapsPlaceInfo where
  placeId : Option String := none
  name : Option String := none
  address : Option String := none
  latitude : Option String := none
  longitude : Option String := none
  phoneNumber : Option String := none
  website : Option String := none
  priceLevel : Option Nat := none
  imageUrl : Option String := none
  description : Option String := none
deriving Repr, DecidableEq

/-! ## External API response shapes (from `_core/map.ts` usage) -/

/-- One entry of a Places nearby/text search response. -/
structure PlacesSearchItem where
  name : Option String := none
  place_id : Option String := none
deriving Repr, DecidableEq

/-- A Places search response: `status` plus an optional result array. -/
structure PlacesSearchResult where
  status : String
  results : Option (List PlacesSearchItem) := none
deriving Repr, DecidableEq

/-- `geometry.location` of a details response. -/
structure PlaceLocation where
  lat : Option DecNum := none
  lng : Option DecNum := none
deriving Repr, DecidableEq

/-- `geometry` of a details response. -/
structure PlaceGeometry where
  location : Option PlaceLocation := none
deriving Repr, DecidableEq

/-- `editorial_summary` of a details response. -/
structure EditorialSummary where
  overview : Option String := none
deriving Repr, DecidableEq

/-- One review of a details response. -/
structure PlaceReview where
  text : Option String := none
deriving Repr, DecidableEq

/-- One photo of a details response. -/
structure PlacePhoto where
  photo_reference : Option String := none
deriving Repr, DecidableEq

/-- The `result` object of a Place Details response. -/
structure PlaceDetailsRecord where
  place_id : Option String := none
  name : Option String := none
  formatted_address : Option String := none
  formatted_phone_number : Option String := none
  international_phone_number : Option String := none
  website : Option String := none
  geometry : Option PlaceGeometry := none
  price_level : Option Nat := none
  editorial_summary : Option EditorialSummary := none
  reviews : Option (List PlaceReview) := none
  photos : Option (List PlacePhoto) := none
deriving Repr, DecidableEq

/-- A Place Details response: `status` plus an optional result object. -/
structure PlaceDetailsResult where
  status : String
  result : Option PlaceDetailsRecord := none
deriving Repr, DecidableEq

/-- Oracle for the external world: the short-link redirect resolution
(`fetch` in `resolveShortUrl`) and the three Places API endpoints reached
through `makeRequest`.  `Except.error` models a thrown network error (or
the 10-second abort of the short-link fetch). -/
structure MapsApi where
  resolveShort : String → Except Unit String
  nearbySearch : DecNum → DecNum → Except Unit PlacesSearchResult
  textSearch : String → Except Unit PlacesSearchResult
  placeDetails : String → Except Unit PlaceDetailsResult

/-! ## `extractPlaceInfoFromUrl` -/

/-- The place-name sub-extraction shared by methods 2 and 3:
`url.match(/\/place\/([^/@]+)/)`, then `.replace(/\+/g, ' ')` and
`decodeURIComponent`; a decode failure is a thrown `URIError`. -/
def placeNameFromUrl (url : String) : Except Unit (Option String) :=
  match placeSegMatch url with
  | none => Except.ok none
  | some raw =>
    match decodeURIComponentJS ⟨raw.data.map fun c => if c == '+' then ' ' else c⟩ with
    | none => Except.error ()
    | some s => Except.ok (some s)

/-- Method 3 of the extractor: viewport coordinates from the `@` marker,
paired with the path-derived place name. -/
def extractViewportStep (url : String) : Except Unit (Option PlaceInfo) :=
  match viewportMatch url with
  | some p =>
    (placeNameFromUrl url).map fun pn =>
      some { coordinates := some ⟨p.1, p.2⟩, placeName := pn }
  | none => Except.ok none

/-- The body of `extractPlaceInfoFromUrl` before its `catch`:
`Except.error` is a thrown exception (URL parse failure or `URIError`
from `decodeURIComponent`). -/
def extractPlaceInfoCore (url : String) : Except Unit (Option PlaceInfo) :=
  match parseJSURL url with
  | none => Except.error ()
  | some urlObj =>
    let placeIdParam := searchParamsGet urlObj "place_id"
    if truthyOptStr placeIdParam then
      Except.ok (some { placeId := placeIdParam })
    else
      match dataBlobMatch url with
      | some dm =>
        match decodeURIComponentJS dm with
        | none => Except.error ()
        | some dataParam =>
          match coordPairMatch dataParam with
          | some p =>
            (placeNameFromUrl url).map fun pn =>
              some { coordinates := some ⟨p.1, p.2⟩, placeName := pn }
          | none => extractViewportStep url
      | none => extractViewportStep url

/-- `extractPlaceInfoFromUrl` from the source: the `try/catch` converts
every thrown exception into the `null` outcome. -/
def extractPlaceInfoFromUrl (url : String) : Option PlaceInfo :=
  match extractPlaceInfoCore url with
  | Except.error _ => none
  | Except.ok r => r

/-! ## Place ID resolution (`getPlaceIdFromCoordinates`, `getPlaceIdFromName`) -/

/-- `!result.results?.length` : the result array is absent or empty. -/
def jsEmptyResults (r : Option (List PlacesSearchItem)) : Bool :=
  match r with
  | none => true
  | some l => l.isEmpty

/-- `result.results[0].place_id ?? null`. -/
def firstPlaceId (l : List PlacesSearchItem) : Option String :=
  l.head?.bind fun r => r.place_id

/-- `r.name?.toLowerCase().includes(normalizedName)` for one search item:
an absent name is falsy. -/
def nameMatchPred (needle : List Char) (r : PlacesSearchItem) : Bool :=
  match r.name with
  | none => false
  | some n => listContains (lowerList n.data) needle

/-- `getPlaceIdFromCoordinates` from the source.  Its `try/catch` turns a
thrown request error into `null`; a non-`"OK"` status or a missing/empty
result array also yields `null`; a name hint (when truthy) is first
matched case-insensitively against result names, and a found match with a
truthy `place_id` wins, otherwise the first (nearest) result's id (or
`null` when that id is absent) is returned. -/
def getPlaceIdFromCoordinates (api : MapsApi) (lat lng : DecNum)
    (placeName : Option String) : Option String :=
  match api.nearbySearch lat lng with
  | Except.error _ => none
  | Except.ok result =>
    if !(result.status == "OK") || jsEmptyResults result.results then none
    else
      let results := result.results.getD []
      let viaName : Option String :=
        if truthyOptStr placeName then
          let normalizedName := lowerList (placeName.getD "").data
          match results.find? (nameMatchPred normalizedName) with
          | some m => if truthyOptStr m.place_id then m.place_id else none
          | none => none
        else none
      match viaName with
      | some pid => some pid
      | none => firstPlaceId results

/-- `getPlaceIdFromName` from the source: a text search scoped to
establishments; first result's id on success, `null` otherwise (including
thrown request errors, via its `try/catch`). -/
def getPlaceIdFromName (api : MapsApi) (placeName : String) : Option String :=
  match api.textSearch placeName with
  | Except.error _ => none
  | Except.ok result =>
    if result.status == "OK" && !(result.results.getD []).isEmpty then
      firstPlaceId (result.results.getD [])
    else none

/-! ## Place details (`fetchPlaceDetails`) -/

/-- Decimal digits of a natural number (with fuel; `fuel > n` suffices). -/
def natDigitsAux : Nat → Nat → List Char
  | 0, _ => []
  | fuel + 1, n =>
    if n < 10 then [Char.ofNat ('0'.toNat + n)]
    else natDigitsAux fuel (n / 10) ++ [Char.ofNat ('0'.toNat + n % 10)]

/-- Decimal digits of a natural number. -/
def natDigits (n : Nat) : List Char :=
  natDigitsAux (n + 1) n

/-- Model of JavaScript `String(x)` on a number that is an exact decimal:
sign, integer digits, and a fractional part when the scale is positive.
(For the canonical decimals produced by this model, this is exactly the
shortest round-trip representation JavaScript prints.) -/
def decNumToString (d : DecNum) : String :=
  let ds0 := natDigits d.mant
  let ds := List.replicate (d.scale + 1 - ds0.length) '0' ++ ds0
  let whole := ds.take (ds.length - d.scale)
  let frac := ds.drop (ds.length - d.scale)
  let core := if d.scale == 0 then whole else whole ++ '.' :: frac
  ⟨if d.neg then '-' :: core else core⟩

/-- The error kinds the pipeline surfaces, named as in the specification
(§7); `detailsUnavailable` carries the verbatim source message, since
both the failed details fetch and the missing-coordinates check surface
that kind with distinct user-facing text. -/
inductive MapsError where
  | invalidUrl
  | unresolvableLink
  | placeNotFound
  | detailsUnavailable (message : String)
  | networkTimeout
  | network
deriving Repr, DecidableEq

/-- `fetchPlaceDetails` from the source: a non-`"OK"` status or a missing
result object throws ("Could not fetch place details..."); otherwise the
normalized record is built with the `??` fallbacks of the source
(`name ?? "Unknown Place"`, `formatted_address ?? name ?? "Unknown"`),
coordinates stringified only when present and non-null, the description
taken from a truthy editorial overview or else the first review's truthy
text sliced to 500 characters, and the image URL built from the first
photo's truthy reference.  A thrown `makeRequest` error propagates. -/
def fetchPlaceDetails (api : MapsApi) (placeId : String) :
    Except MapsError GoogleMapsPlaceInfo :=
  match api.placeDetails placeId with
  | Except.error _ => Except.error MapsError.network
  | Except.ok result =>
    match result.result with
    | none =>
      Except.error
        (MapsError.detailsUnavailable "Could not fetch place details from Google Places API.")
    | some r =>
      if !(result.status == "OK") then
        Except.error
          (MapsError.detailsUnavailable "Could not fetch place details from Google Places API.")
      else
        let location := r.geometry.bind fun g => g.location
        let info : GoogleMapsPlaceInfo :=
          { placeId := r.place_id
            name := some (r.name.getD "Unknown Place")
            address := some (r.formatted_address.getD (r.name.getD "Unknown"))
            latitude := (location.bind fun l => l.lat).map decNumToString
            longitude := (location.bind fun l => l.lng).map decNumToString
            phoneNumber := r.formatted_phone_number.orElse fun _ => r.international_phone_number
            website := r.website
            priceLevel := r.price_level }
        let info :=
          if truthyOptStr (r.editorial_summary.bind fun e => e.overview) then
            { info with description := r.editorial_summary.bind fun e => e.overview }
          else
            match r.reviews with
            | some (rv :: _) =>
              if truthyOptStr rv.text then
                { info with description := rv.text.map fun t => (⟨t.data.take 500⟩ : String) }
              else info
            | _ => info
        let info :=
          match r.photos with
          | some (ph :: _) =>
            let ref := encodeURIComponentJS (ph.photo_reference.getD "")
            if truthyOptStr ph.photo_reference then
              { info with imageUrl := some ("/api/place-photo?ref=" ++ ref) }
            else info
          | _ => info
        Except.ok info

/-! ## The pipeline (`resolveAndParseMapsUrl`) -/

/-- Step 3 of `resolveAndParseMapsUrl`: choose the place id directly when
truthy, else resolve through coordinates, else through a truthy name. -/
def resolvePlaceId (api : MapsApi) (placeInfo : PlaceInfo) : Option String :=
  if truthyOptStr placeInfo.placeId then placeInfo.placeId
  else
    match placeInfo.coordinates with
    | some c => getPlaceIdFromCoordinates api c.lat c.lng placeInfo.placeName
    | none =>
      if truthyOptStr placeInfo.placeName then
        getPlaceIdFromName api (placeInfo.placeName.getD "")
      else none

/-- Steps 2-4 of `resolveAndParseMapsUrl`, on the canonical (expanded)
URL: extraction, place-id resolution, details fetch, and the final
mandatory-coordinates check. -/
def resolveFromFullUrl (api : MapsApi) (fullUrl : String) :
    Except MapsError GoogleMapsPlaceInfo :=
  match extractPlaceInfoFromUrl fullUrl with
  | none => Except.error MapsError.unresolvableLink
  | some placeInfo =>
    let placeId := resolvePlaceId api placeInfo
    if !(truthyOptStr placeId) then Except.error MapsError.placeNotFound
    else
      match fetchPlaceDetails api (placeId.getD "") with
      | Except.error e => Except.error e
      | Except.ok info =>
        if !(truthyOptStr info.latitude) || !(truthyOptStr info.longitude) then
          Except.error (MapsError.detailsUnavailable "Place details did not include coordinates.")
        else Except.ok info

/-- `resolveAndParseMapsUrl` from the source: validation, conditional
short-link expansion, then `resolveFromFullUrl`.  Error constructors map
one-to-one to the thrown messages of the source:
`invalidUrl` = "Invalid Google Maps URL...", `unresolvableLink` =
"Could not extract place information from URL...", `placeNotFound` =
"Could not resolve Place ID...", `detailsUnavailable` carries its message
verbatim, and `networkTimeout` is a thrown short-link fetch failure. -/
def resolveAndParseMapsUrl (api : MapsApi) (url : String) :
    Except MapsError GoogleMapsPlaceInfo :=
  if !(isAllowedMapsUrl url) then Except.error MapsError.invalidUrl
  else if isShortMapsUrl url then
    match api.resolveShort url with
    | Except.error _ => Except.error MapsError.networkTimeout
    | Except.ok fullUrl => resolveFromFullUrl api fullUrl
  else resolveFromFullUrl api url

/-! ## Concrete oracles (used to instantiate the theorems) -/

/-- An oracle whose every external call throws. -/
def stubApi : MapsApi :=
  ⟨fun _ => Except.error (), fun _ _ => Except.error (), fun _ => Except.error (),
    fun _ => Except.error ()⟩

/-- A details response with coordinates present. -/
def goodDetailsResult : PlaceDetailsResult :=
  { status := "OK"
    result := some
      { place_id := some "ChIJtest"
        name := some "Cafe X"
        formatted_address := some "1 Road"
        geometry := some
          { location := some { lat := some ⟨false, 15, 1⟩, lng := some ⟨false, 25, 1⟩ } } } }

/-- An oracle whose details endpoint answers with full coordinates. -/
def goodDetailsApi : MapsApi :=
  { stubApi with placeDetails := fun _ => Except.ok goodDetailsResult }

/-- A details response whose result has no `geometry.location`. -/
def noGeoDetailsResult : PlaceDetailsResult :=
  { status := "OK", result := some { name := some "Cafe X" } }

/-- An oracle whose details endpoint omits `geometry.location`. -/
def noGeoDetailsApi : MapsApi :=
  { stubApi with placeDetails := fun _ => Except.ok noGeoDetailsResult }

/-- A details response whose result omits every field. -/
def emptyDetailsResult : PlaceDetailsResult :=
  { status := "OK", result := some {} }

/-- An oracle whose details endpoint returns an all-absent result. -/
def emptyDetailsApi : MapsApi :=
  { stubApi with placeDetails := fun _ => Except.ok emptyDetailsResult }

/-- The record the pipeline produces from `goodDetailsApi`. -/
def goodResolvedRecord : GoogleMapsPlaceInfo :=
  { placeId := some "ChIJtest"
    name := some "Cafe X"
    address := some "1 Road"
    latitude := some "1.5"
    longitude := some "2.5" }

/-- Two nearby-search candidates: only the second name contains the hint
"Test Cafe" (case-insensitively). -/
def twoCandidates : List PlacesSearchItem :=
  [{ name := some "Nearest Noodles", place_id := some "PID1" },
   { name := some "The Test Cafe SG", place_id := some "PID2" }]

/-- An oracle whose nearby search returns the two candidates. -/
def twoCandidatesApi : MapsApi :=
  { stubApi with nearbySearch := fun _ _ => Except.ok { status := "OK", results := some twoCandidates } }

/-- An oracle whose nearby search succeeds with zero results. -/
def emptyNearbyApi : MapsApi :=
  { stubApi with nearbySearch := fun _ _ => Except.ok { status := "OK", results := some [] } }

/-- An oracle expanding every short link to a fixed canonical URL that
embeds coordinates `(1.3521, 103.8198)` and the name hint `Test Cafe`,
with the two-candidate nearby search and full details. -/
def shortLinkApi : MapsApi :=
  { resolveShort := fun _ =>
      Except.ok "https://www.google.com/maps/place/Test+Cafe/@1.3521,103.8198,17z/data=!3m1!4b1!3d1.3521!4d103.8198"
    nearbySearch := fun _ _ => Except.ok { status := "OK", results := some twoCandidates }
    textSearch := fun _ => Except.error ()
    placeDetails := fun _ => Except.ok goodDetailsResult }

/-! ## Helper lemmas -/

/-- Two strings with equal character data are equal. -/
theorem stringDataInj {a b : String} (h : a.data = b.data) : a = b := by
  cases a
  cases b
  exact congrArg String.mk h

/-- JavaScript truthiness of an optional string, characterized. -/
theorem truthyOptStr_eq_true {o : Option String} :
    truthyOptStr o = true ↔ ∃ s, o = some s ∧ s ≠ "" := by
  cases o with
  | none =>
    constructor
    · intro h
      exact absurd h (by simp [truthyOptStr])
    · rintro ⟨s, hs, -⟩
      exact absurd hs (by simp)
  | some s =>
    constructor
    · intro h
      refine ⟨s, rfl, ?_⟩
      intro he
      rw [he] at h
      exact absurd h (by simp [truthyOptStr])
    · rintro ⟨s1, hs1, hne⟩
      have : s1 = s := by simpa using hs1.symm
      subst this
      simpa [truthyOptStr] using hne

/-- A truthy optional string is present. -/
theorem truthyOptStr_isSome {o : Option String} (h : truthyOptStr o = true) :
    o.isSome = true := by
  rcases truthyOptStr_eq_true.mp h with ⟨s, rfl, -⟩
  rfl

/-- `listIsSuffix` decides the suffix relation. -/
theorem listIsSuffix_iff (t s : List Char) :
    listIsSuffix t s = true ↔ ∃ p, p ++ t = s := by
  induction s with
  | nil =>
    rw [listIsSuffix]
    constructor
    · intro h
      have ht : ([] : List Char) = t := by simpa using h
      exact ⟨[], by simp [← ht]⟩
    · rintro ⟨p, hp⟩
      rcases List.append_eq_nil.mp hp with ⟨rfl, rfl⟩
      simp
  | cons a s ih =>
    rw [listIsSuffix]
    constructor
    · intro h
      have h1 : (a :: s = t) ∨ listIsSuffix t s = true := by simpa using h
      rcases h1 with h1 | h2
      · exact ⟨[], by simp [h1]⟩
      · rcases ih.mp h2 with ⟨p, hp⟩
        exact ⟨a :: p, by simp [hp]⟩
    · rintro ⟨p, hp⟩
      cases p with
      | nil =>
        simp only [List.nil_append] at hp
        simp [hp]
      | cons b p =>
        simp only [List.cons_append, List.cons.injEq] at hp
        have := ih.mpr ⟨p, hp.2⟩
        simp [this]

/-- `strEndsWith` decides the string suffix relation. -/
theorem strEndsWith_iff (s t : String) :
    strEndsWith s t = true ↔ ∃ p : String, s = p ++ t := by
  unfold strEndsWith
  rw [listIsSuffix_iff]
  constructor
  · rintro ⟨p, hp⟩
    refine ⟨⟨p⟩, stringDataInj ?_⟩
    rw [String.data_append]
    exact hp.symm
  · rintro ⟨p, rfl⟩
    exact ⟨p.data, (String.data_append p t).symm⟩

/-- Host-side reading of the specification: the stripped host equals an
allow-listed host, or is a dot-separated subdomain of one (`p ++ "." ++ h`
for some, possibly empty, prefix `p`). -/
def HostOnAllowList (host : String) : Prop :=
  ∃ h ∈ ALLOWED_MAPS_HOSTS, host = h ∨ ∃ p : String, host = p ++ "." ++ h

/-- The source's allow-list check (`===` or `endsWith("." + h)`) decides
exactly the specification's equals-or-subdomain predicate. -/
theorem allowHostCheck_iff (host : String) :
    (ALLOWED_MAPS_HOSTS.any fun h => host == h || strEndsWith host ("." ++ h)) = true ↔
      HostOnAllowList host := by
  rw [List.any_eq_true]
  unfold HostOnAllowList
  constructor
  · rintro ⟨h, hmem, hb⟩
    refine ⟨h, hmem, ?_⟩
    have hb1 : host = h ∨ strEndsWith host ("." ++ h) = true := by simpa using hb
    rcases hb1 with h1 | h2
    · exact Or.inl h1
    · rcases (strEndsWith_iff _ _).mp h2 with ⟨p, hp⟩
      exact Or.inr ⟨p, by rw [hp, String.append_assoc]⟩
  · rintro ⟨h, hmem, hcase⟩
    refine ⟨h, hmem, ?_⟩
    rcases hcase with h1 | ⟨p, hp⟩
    · simp [h1]
    · have h2 : strEndsWith host ("." ++ h) = true :=
        (strEndsWith_iff _ _).mpr ⟨p, by rw [hp, String.append_assoc]⟩
      simp [h2]

/-- When validation passes, the pipeline is `resolveFromFullUrl` on the
canonical URL: the short-link resolution result for a short URL, the
input itself otherwise. -/
theorem resolveAndParse_eq_fromFull (api : MapsApi) (url fullUrl : String)
    (hok : isAllowedMapsUrl url = true)
    (hshort : isShortMapsUrl url = true → api.resolveShort url = Except.ok fullUrl)
    (hnot : isShortMapsUrl url = false → fullUrl = url) :
    resolveAndParseMapsUrl api url = resolveFromFullUrl api fullUrl := by
  cases hs : isShortMapsUrl url with
  | true => simp [resolveAndParseMapsUrl, hok, hs, hshort hs]
  | false => simp [resolveAndParseMapsUrl, hok, hs, hnot hs]

/-- A record returned by `resolveFromFullUrl` passed the final
mandatory-coordinates check: both coordinate strings are truthy. -/
theorem resolveFromFullUrl_ok_truthyCoords {api : MapsApi} {fullUrl : String}
    {info : GoogleMapsPlaceInfo}
    (h : resolveFromFullUrl api fullUrl = Except.ok info) :
    truthyOptStr info.latitude = true ∧ truthyOptStr info.longitude = true := by
  unfold resolveFromFullUrl at h
  split at h
  · exact absurd h (by simp)
  · dsimp only at h
    split at h
    · exact absurd h (by simp)
    · split at h
      · exact absurd h (by simp)
      · split at h
        · exact absurd h (by simp)
        · next hcond =>
            cases h
            simpa using hcond

/-- A record returned by the whole pipeline passed the final
mandatory-coordinates check. -/
theorem resolveAndParseMapsUrl_ok_truthyCoords {api : MapsApi} {url : String}
    {info : GoogleMapsPlaceInfo}
    (h : resolveAndParseMapsUrl api url = Except.ok info) :
    truthyOptStr info.latitude = true ∧ truthyOptStr info.longitude = true := by
  unfold resolveAndParseMapsUrl at h
  split at h
  · exact absurd h (by simp)
  · split at h
    · split at h
      · exact absurd h (by simp)
      · exact resolveFromFullUrl_ok_truthyCoords h
    · exact resolveFromFullUrl_ok_truthyCoords h

/-- Characterization of a successful `fetchPlaceDetails`: the normalized
record's name, address and coordinate fields in terms of the response. -/
theorem fetchPlaceDetails_ok_fields {api : MapsApi} {pid : String}
    {res : PlaceDetailsResult} {r : PlaceDetailsRecord}
    (hres : api.placeDetails pid = Except.ok res)
    (hst : res.status = "OK") (hr : res.result = some r) :
    ∃ info, fetchPlaceDetails api pid = Except.ok info ∧
      info.name = some (r.name.getD "Unknown Place") ∧
      info.address = some (r.formatted_address.getD (r.name.getD "Unknown")) ∧
      info.latitude =
        ((r.geometry.bind PlaceGeometry.location).bind PlaceLocation.lat).map decNumToString ∧
      info.longitude =
        ((r.geometry.bind PlaceGeometry.location).bind PlaceLocation.lng).map decNumToString := by
  unfold fetchPlaceDetails
  rw [hres]
  simp only [hr, hst]
  repeat' split
  all_goals first
  | exact ⟨_, rfl, rfl, rfl, rfl, rfl⟩
  | (rename_i hbad; exact absurd hbad (by decide))

/-! ## The claims -/

/-- C1: for every input URL, `resolveAndParseMapsUrl` returns a place
record only if both latitude and longitude are present and non-null in
that record; and whenever the details stage is reached and its success
response lacks `geometry.location` (so no coordinates can be populated),
the pipeline fails with the `DetailsUnavailable` error
"Place details did not include coordinates." instead of returning a
record without geolocation. -/
theorem c1_resolved_place_requires_coordinates :
    (∀ (api : MapsApi) (url : String) (info : GoogleMapsPlaceInfo),
        resolveAndParseMapsUrl api url = Except.ok info →
        info.latitude.isSome = true ∧ info.longitude.isSome = true) ∧
    (∀ (api : MapsApi) (url fullUrl : String) (pinfo : PlaceInfo) (pid : String)
        (res : PlaceDetailsResult) (r : PlaceDetailsRecord),
        isAllowedMapsUrl url = true →
        (isShortMapsUrl url = true → api.resolveShort url = Except.ok fullUrl) →
        (isShortMapsUrl url = false → fullUrl = url) →
        extractPlaceInfoFromUrl fullUrl = some pinfo →
        resolvePlaceId api pinfo = some pid →
        pid ≠ "" →
        api.placeDetails pid = Except.ok res →
        res.status = "OK" →
        res.result = some r →
        r.geometry.bind PlaceGeometry.location = none →
        resolveAndParseMapsUrl api url =
          Except.error (MapsError.detailsUnavailable "Place details did not include coordinates.")) := by
  constructor
  · intro api url info h
    have hc := resolveAndParseMapsUrl_ok_truthyCoords h
    exact ⟨truthyOptStr_isSome hc.1, truthyOptStr_isSome hc.2⟩
  · intro api url fullUrl pinfo pid res r hok hshort hnot hx hrid hne hres hst hr hgeo
    rw [resolveAndParse_eq_fromFull api url fullUrl hok hshort hnot]
    unfold resolveFromFullUrl
    rw [hx]
    rcases fetchPlaceDetails_ok_fields hres hst hr with ⟨info, hfetch, -, -, hlat, -⟩
    rw [hgeo] at hlat
    simp only [Option.none_bind, Option.map_none'] at hlat
    have hpidne : (pid == "") = false := by simpa using hne
    simp only [hrid]
    simp [truthyOptStr, hpidne]
    rw [hfetch]
    simp [hlat, truthyOptStr]

/-- C1 witness: a pipeline run that succeeds carries both coordinates,
and a run whose details response lacks `geometry.location` fails with the
missing-coordinates `DetailsUnavailable` error. -/
theorem c1_resolved_place_requires_coordinates_witness :
    (goodResolvedRecord.latitude.isSome = true ∧ goodResolvedRecord.longitude.isSome = true) ∧
    resolveAndParseMapsUrl noGeoDetailsApi "https://www.google.com/maps?place_id=ChIJtest" =
      Except.error (MapsError.detailsUnavailable "Place details did not include coordinates.") :=
  ⟨c1_resolved_place_requires_coordinates.1 goodDetailsApi
      "https://www.google.com/maps?place_id=ChIJtest" goodResolvedRecord rfl,
    c1_resolved_place_requires_coordinates.2 noGeoDetailsApi
      "https://www.google.com/maps?place_id=ChIJtest" "https://www.google.com/maps?place_id=ChIJtest"
      { placeId := some "ChIJtest" } "ChIJtest" noGeoDetailsResult { name := some "Cafe X" }
      (by decide) (fun h => absurd h (by decide)) (fun _ => rfl)
      (by decide) (by decide) (by decide) rfl rfl rfl rfl⟩

/-- C4: `isValidGoogleMapsUrl` returns `true` exactly when the string
parses as a URL whose host, after stripping one leading `www.`, equals or
is a dot-separated subdomain (possibly with an empty prefix label, as
`endsWith` admits) of one of the fixed allow-listed hosts; lookalike
hosts such as `notgoogle.com` or `evil.com` yield `false`, and an
unparseable string yields `false` rather than an exception (the model's
total `Bool` return value). -/
theorem c4_validator_decides_allowlist :
    (∀ url : String, isValidGoogleMapsUrl url = true ↔
        ∃ u, parseJSURL url = some u ∧ HostOnAllowList (stripWwwDot u.hostname)) ∧
    isValidGoogleMapsUrl "https://evil.com/place/x" = false ∧
    isValidGoogleMapsUrl "https://notgoogle.com/maps/place/x" = false ∧
    isValidGoogleMapsUrl "https://www.maps.google.com/maps" = true ∧
    isValidGoogleMapsUrl "not a url" = false := by
  refine ⟨?_, by decide, by decide, by decide, by decide⟩
  intro url
  unfold isValidGoogleMapsUrl isAllowedMapsUrl
  cases hp : parseJSURL url with
  | none => simp
  | some u =>
    constructor
    · intro h
      exact ⟨u, rfl, (allowHostCheck_iff _).mp h⟩
    · rintro ⟨u1, hu1, hal⟩
      have he : u = u1 := by simpa using hu1
      subst he
      exact (allowHostCheck_iff _).mpr hal

/-- C2 counterexample: a canonical URL that carries a `place_id` query
parameter with an empty value (`place_id=`).  The claim says the
extractor must return `{placeId: ""}` for it; instead, the empty value is
falsy, so the extractor falls through to the viewport pattern and returns
coordinates. -/
theorem c2_counterexample_empty_place_id :
    (∃ u, parseJSURL "https://google.com/maps?place_id=&q=@1.5,2.5" = some u ∧
        searchParamsGet u "place_id" = some "") ∧
    extractPlaceInfoFromUrl "https://google.com/maps?place_id=&q=@1.5,2.5" =
      some { coordinates := some ⟨⟨false, 15, 1⟩, ⟨false, 25, 1⟩⟩ } :=
  ⟨⟨⟨"google.com", "place_id=&q=@1.5,2.5"⟩, by decide, by decide⟩, by decide⟩

/-- C2 (amended): for every canonical URL whose `place_id` query
parameter is present with a NON-EMPTY value, the extractor returns
exactly `{placeId: value}` - no coordinates and no name hint - regardless
of any other embedded pattern, because the place-identifier check runs
first. -/
theorem c2_place_id_parameter_has_priority (url v : String) (u : JSURL)
    (hu : parseJSURL url = some u)
    (hv : searchParamsGet u "place_id" = some v) (hne : v ≠ "") :
    extractPlaceInfoFromUrl url = some { placeId := some v } := by
  unfold extractPlaceInfoFromUrl extractPlaceInfoCore
  rw [hu]
  have ht : truthyOptStr (some v) = true := truthyOptStr_eq_true.mpr ⟨v, rfl, hne⟩
  simp [hv, ht]

/-- C2 witness: a URL carrying both `place_id=ChIJabc123` and an
`@lat,lng` viewport pattern extracts to the place id alone. -/
theorem c2_place_id_parameter_has_priority_witness :
    extractPlaceInfoFromUrl "https://www.google.com/maps/place/X/@1.5,2.5,17z?place_id=ChIJabc123" =
      some { placeId := some "ChIJabc123" } :=
  c2_place_id_parameter_has_priority _ "ChIJabc123"
    ⟨"www.google.com", "place_id=ChIJabc123"⟩ (by decide) (by decide) (by decide)

/-- C5: for every canonical URL matching none of the three extraction
patterns (no truthy `place_id` parameter, no coordinate pair in the first
`data=` blob, no `@lat,lng` viewport marker), the extractor returns
`null` without raising an error, and the pipeline then fails with the
`UnresolvableLink` error ("Could not extract place information from
URL"), an outcome distinct from any network or API failure constructor. -/
theorem c5_no_pattern_yields_null_then_unresolvable :
    (∀ (url : String) (u : JSURL), parseJSURL url = some u →
      truthyOptStr (searchParamsGet u "place_id") = false →
      (∀ d dp, dataBlobMatch url = some d → decodeURIComponentJS d = some dp →
          coordPairMatch dp = none) →
      viewportMatch url = none →
      extractPlaceInfoFromUrl url = none) ∧
    (∀ (api : MapsApi) (url fullUrl : String),
      isAllowedMapsUrl url = true →
      (isShortMapsUrl url = true → api.resolveShort url = Except.ok fullUrl) →
      (isShortMapsUrl url = false → fullUrl = url) →
      extractPlaceInfoFromUrl fullUrl = none →
      resolveAndParseMapsUrl api url = Except.error MapsError.unresolvableLink) := by
  constructor
  · intro url u hu hpid hdata hview
    unfold extractPlaceInfoFromUrl extractPlaceInfoCore
    rw [hu]
    cases hd : dataBlobMatch url with
    | none => simp [hpid, hd, extractViewportStep, hview]
    | some d =>
      cases hdp : decodeURIComponentJS d with
      | none => simp [hpid, hd, hdp]
      | some dp =>
        have hc := hdata d dp hd hdp
        simp [hpid, hd, hdp, hc, extractViewportStep, hview]
  · intro api url fullUrl hok hshort hnot hx
    rw [resolveAndParse_eq_fromFull api url fullUrl hok hshort hnot]
    unfold resolveFromFullUrl
    rw [hx]

/-- C5 witness: the bare domain root extracts to `null` and the pipeline
reports `UnresolvableLink` on it. -/
theorem c5_no_pattern_yields_null_then_unresolvable_witness :
    extractPlaceInfoFromUrl "https://google.com/" = none ∧
    resolveAndParseMapsUrl stubApi "https://google.com/" =
      Except.error MapsError.unresolvableLink :=
  ⟨c5_no_pattern_yields_null_then_unresolvable.1 "https://google.com/" ⟨"google.com", ""⟩
      (by decide) (by decide)
      (by intro d dp hd hdp
          simp [show dataBlobMatch "https://google.com/" = none from by decide] at hd)
      (by decide),
    c5_no_pattern_yields_null_then_unresolvable.2 stubApi "https://google.com/"
      "https://google.com/" (by decide) (fun h => absurd h (by decide)) (fun _ => rfl) (by decide)⟩

/-- C9: for every input string, the extractor terminates with either a
place-info value or `null`, and never throws: a thrown exception inside
the body (modelled by `Except.error` in `extractPlaceInfoCore`) is caught
and converted to the `null` outcome, while a normal return passes
through. -/
theorem c9_extractor_total_never_throws :
    (∀ url : String, extractPlaceInfoFromUrl url = none ∨
        ∃ pinfo, extractPlaceInfoFromUrl url = some pinfo) ∧
    (∀ url : String, extractPlaceInfoCore url = Except.error () →
        extractPlaceInfoFromUrl url = none) ∧
    (∀ (url : String) (r : Option PlaceInfo), extractPlaceInfoCore url = Except.ok r →
        extractPlaceInfoFromUrl url = r) := by
  refine ⟨?_, ?_, ?_⟩
  · intro url
    cases h : extractPlaceInfoFromUrl url with
    | none => exact Or.inl rfl
    | some pinfo => exact Or.inr ⟨pinfo, rfl⟩
  · intro url h
    unfold extractPlaceInfoFromUrl
    rw [h]
  · intro url r h
    unfold extractPlaceInfoFromUrl
    rw [h]

/-- C9 witness: an unparseable string throws inside the body and is
caught into `null`; a parseable one returns its value unchanged. -/
theorem c9_extractor_total_never_throws_witness :
    extractPlaceInfoFromUrl "not a url" = none ∧
    extractPlaceInfoFromUrl "https://google.com/maps?place_id=x" = some { placeId := some "x" } :=
  ⟨c9_extractor_total_never_throws.2.1 "not a url" rfl,
    c9_extractor_total_never_throws.2.2 "https://google.com/maps?place_id=x"
      (some { placeId := some "x" }) rfl⟩

/-- C3: when coordinates and a (non-empty) name hint are given and the
nearby search returns a success status with a non-empty result list, the
resolver returns the identifier of the first result whose name contains
the hint case-insensitively; when no result name contains the hint, the
first (nearest) result's identifier is returned.  (The hypothesis that
every result carries a non-empty identifier makes "the identifier of that
result" well defined, matching the claim's reading.)  The two-candidate
"second matches" situation of the claim is the witness below. -/
theorem c3_nearby_prefers_name_hint (api : MapsApi) (lat lng : DecNum) (hint : String)
    (res : PlacesSearchResult) (l : List PlacesSearchItem)
    (hres : api.nearbySearch lat lng = Except.ok res)
    (hst : res.status = "OK") (hl : res.results = some l) (hne : l ≠ [])
    (hhint : hint ≠ "")
    (hids : ∀ r ∈ l, ∃ p, r.place_id = some p ∧ p ≠ "") :
    (∀ m, l.find? (nameMatchPred (lowerList hint.data)) = some m →
        getPlaceIdFromCoordinates api lat lng (some hint) = m.place_id) ∧
    (l.find? (nameMatchPred (lowerList hint.data)) = none →
        getPlaceIdFromCoordinates api lat lng (some hint) = firstPlaceId l) := by
  have hempty : l.isEmpty = false := by
    cases l with
    | nil => exact absurd rfl hne
    | cons a l2 => rfl
  have htr : truthyOptStr (some hint) = true := truthyOptStr_eq_true.mpr ⟨hint, rfl, hhint⟩
  constructor
  · intro m hm
    rcases hids m (List.mem_of_find?_eq_some hm) with ⟨p, hp, hpne⟩
    have htp : truthyOptStr (some p) = true := truthyOptStr_eq_true.mpr ⟨p, rfl, hpne⟩
    unfold getPlaceIdFromCoordinates
    rw [hres]
    simp [hst, hl, jsEmptyResults, hempty, htr, hm, hp, htp]
  · intro hm
    unfold getPlaceIdFromCoordinates
    rw [hres]
    simp [hst, hl, jsEmptyResults, hempty, htr, hm]

/-- C3 witness: two candidates, where only the second's name contains
"Test Cafe" (case-insensitively): the second identifier is returned, not
the nearest first one. -/
theorem c3_nearby_prefers_name_hint_witness :
    getPlaceIdFromCoordinates twoCandidatesApi ⟨false, 13521, 4⟩ ⟨false, 1038198, 4⟩
      (some "Test Cafe") = some "PID2" :=
  (c3_nearby_prefers_name_hint twoCandidatesApi ⟨false, 13521, 4⟩ ⟨false, 1038198, 4⟩
      "Test Cafe" { status := "OK", results := some twoCandidates } twoCandidates rfl rfl rfl
      (by decide) (by decide)
      (by intro r hr
          simp only [twoCandidates, List.mem_cons, List.not_mem_nil, or_false] at hr
          rcases hr with rfl | rfl
          · exact ⟨"PID1", rfl, by decide⟩
          · exact ⟨"PID2", rfl, by decide⟩)).1
    { name := some "The Test Cafe SG", place_id := some "PID2" } (by decide)

/-- C6: when the extracted info carries coordinates (and no truthy direct
place identifier) and the nearby search answers with a non-success status
or an absent/empty result list, the resolver yields `null`, and the
pipeline terminates with the `PlaceNotFound` error ("Could not resolve
Place ID"); no retry and no further fallback occurs (the run is a single
oracle consultation whose failure is terminal). -/
theorem c6_nearby_failure_gives_place_not_found :
    (∀ (api : MapsApi) (lat lng : DecNum) (pn : Option String) (res : PlacesSearchResult),
        api.nearbySearch lat lng = Except.ok res →
        (res.status ≠ "OK" ∨ res.results = none ∨ res.results = some []) →
        getPlaceIdFromCoordinates api lat lng pn = none) ∧
    (∀ (api : MapsApi) (url fullUrl : String) (pinfo : PlaceInfo) (c : Coordinates)
        (res : PlacesSearchResult),
        isAllowedMapsUrl url = true →
        (isShortMapsUrl url = true → api.resolveShort url = Except.ok fullUrl) →
        (isShortMapsUrl url = false → fullUrl = url) →
        extractPlaceInfoFromUrl fullUrl = some pinfo →
        truthyOptStr pinfo.placeId = false →
        pinfo.coordinates = some c →
        api.nearbySearch c.lat c.lng = Except.ok res →
        (res.status ≠ "OK" ∨ res.results = none ∨ res.results = some []) →
        resolveAndParseMapsUrl api url = Except.error MapsError.placeNotFound) := by
  have key : ∀ (api : MapsApi) (lat lng : DecNum) (pn : Option String) (res : PlacesSearchResult),
      api.nearbySearch lat lng = Except.ok res →
      (res.status ≠ "OK" ∨ res.results = none ∨ res.results = some []) →
      getPlaceIdFromCoordinates api lat lng pn = none := by
    intro api lat lng pn res hres hbad
    unfold getPlaceIdFromCoordinates
    rw [hres]
    have hguard : (!(res.status == "OK") || jsEmptyResults res.results) = true := by
      rcases hbad with h | h | h
      · have hb : (res.status == "OK") = false := beq_eq_false_iff_ne.mpr h
        simp [hb]
      · simp [jsEmptyResults, h]
      · simp [jsEmptyResults, h]
    simp [hguard]
  refine ⟨key, ?_⟩
  intro api url fullUrl pinfo c res hok hshort hnot hx hpidf hc hres hbad
  rw [resolveAndParse_eq_fromFull api url fullUrl hok hshort hnot]
  unfold resolveFromFullUrl
  rw [hx]
  have hrid : resolvePlaceId api pinfo = none := by
    unfold resolvePlaceId
    rw [hc]
    simp [hpidf, key api c.lat c.lng pinfo.placeName res hres hbad]
  simp [hrid, truthyOptStr]

/-- C6 witness: a viewport URL whose coordinates resolve to a successful
but empty nearby search gives no identifier and `PlaceNotFound`. -/
theorem c6_nearby_failure_gives_place_not_found_witness :
    getPlaceIdFromCoordinates emptyNearbyApi ⟨false, 15, 1⟩ ⟨false, 25, 1⟩ none = none ∧
    resolveAndParseMapsUrl emptyNearbyApi "https://www.google.com/maps/@1.5,2.5,17z" =
      Except.error MapsError.placeNotFound :=
  ⟨c6_nearby_failure_gives_place_not_found.1 emptyNearbyApi ⟨false, 15, 1⟩ ⟨false, 25, 1⟩ none
      { status := "OK", results := some [] } rfl (Or.inr (Or.inr rfl)),
    c6_nearby_failure_gives_place_not_found.2 emptyNearbyApi
      "https://www.google.com/maps/@1.5,2.5,17z" "https://www.google.com/maps/@1.5,2.5,17z"
      { coordinates := some ⟨⟨false, 15, 1⟩, ⟨false, 25, 1⟩⟩ }
      ⟨⟨false, 15, 1⟩, ⟨false, 25, 1⟩⟩ { status := "OK", results := some [] }
      (by decide) (fun h => absurd h (by decide)) (fun _ => rfl)
      (by decide) (by decide) (by decide) rfl (Or.inr (Or.inr rfl))⟩

/-- `resolveFromFullUrl` never consults the short-link resolver: its
result is unchanged under any replacement of that oracle component. -/
theorem resolveFromFullUrl_ignores_resolveShort (rs r0 : String → Except Unit String)
    (n0 : DecNum → DecNum → Except Unit PlacesSearchResult)
    (t0 : String → Except Unit PlacesSearchResult)
    (d0 : String → Except Unit PlaceDetailsResult) (fullUrl : String) :
    resolveFromFullUrl ⟨rs, n0, t0, d0⟩ fullUrl = resolveFromFullUrl ⟨r0, n0, t0, d0⟩ fullUrl :=
  rfl

/-- C7: the pipeline performs short-link resolution exactly when the
validated URL is on a shortener host: for a non-short URL the result does
not depend on the short-link oracle at all and the URL itself is the
canonical URL handed to the extraction stage, while for a short URL the
oracle's expansion is the canonical URL handed to that stage. -/
theorem c7_short_resolution_iff_short_host :
    (∀ (api : MapsApi) (rs : String → Except Unit String) (url : String),
        isShortMapsUrl url = false →
        resolveAndParseMapsUrl ⟨rs, api.nearbySearch, api.textSearch, api.placeDetails⟩ url =
          resolveAndParseMapsUrl api url) ∧
    (∀ (api : MapsApi) (url : String),
        isAllowedMapsUrl url = true → isShortMapsUrl url = false →
        resolveAndParseMapsUrl api url = resolveFromFullUrl api url) ∧
    (∀ (api : MapsApi) (url fullUrl : String),
        isAllowedMapsUrl url = true → isShortMapsUrl url = true →
        api.resolveShort url = Except.ok fullUrl →
        resolveAndParseMapsUrl api url = resolveFromFullUrl api fullUrl) := by
  refine ⟨?_, ?_, ?_⟩
  · intro api rs url hs
    cases api with
    | mk r0 n0 t0 d0 =>
      unfold resolveAndParseMapsUrl
      simp only [hs]
      cases h : isAllowedMapsUrl url <;>
        simp [resolveFromFullUrl_ignores_resolveShort rs r0 n0 t0 d0 url]
  · intro api url hok hs
    exact resolveAndParse_eq_fromFull api url url hok
      (fun h => Bool.noConfusion (hs.symm.trans h)) (fun _ => rfl)
  · intro api url fullUrl hok hs hres
    exact resolveAndParse_eq_fromFull api url fullUrl hok (fun _ => hres)
      (fun h => Bool.noConfusion (hs.symm.trans h))

/-- C7 witness: a non-short URL is processed identically under a changed
short-link oracle and goes to the extractor unchanged; a short link goes
to the extractor as its expansion. -/
theorem c7_short_resolution_iff_short_host_witness :
    resolveAndParseMapsUrl
        ⟨fun _ => Except.ok "https://evil.com/", goodDetailsApi.nearbySearch,
          goodDetailsApi.textSearch, goodDetailsApi.placeDetails⟩
        "https://www.google.com/maps?place_id=ChIJtest" =
      resolveAndParseMapsUrl goodDetailsApi "https://www.google.com/maps?place_id=ChIJtest" ∧
    resolveAndParseMapsUrl goodDetailsApi "https://www.google.com/maps?place_id=ChIJtest" =
      resolveFromFullUrl goodDetailsApi "https://www.google.com/maps?place_id=ChIJtest" ∧
    resolveAndParseMapsUrl shortLinkApi "https://maps.app.goo.gl/AbC" =
      resolveFromFullUrl shortLinkApi
        "https://www.google.com/maps/place/Test+Cafe/@1.3521,103.8198,17z/data=!3m1!4b1!3d1.3521!4d103.8198" :=
  ⟨c7_short_resolution_iff_short_host.1 goodDetailsApi (fun _ => Except.ok "https://evil.com/")
      "https://www.google.com/maps?place_id=ChIJtest" (by decide),
    c7_short_resolution_iff_short_host.2.1 goodDetailsApi
      "https://www.google.com/maps?place_id=ChIJtest" (by decide) (by decide),
    c7_short_resolution_iff_short_host.2.2 shortLinkApi "https://maps.app.goo.gl/AbC"
      "https://www.google.com/maps/place/Test+Cafe/@1.3521,103.8198,17z/data=!3m1!4b1!3d1.3521!4d103.8198"
      (by decide) (by decide) rfl⟩

/-- C8 counterexample: the URL
`https://google.com/maps?a=data=zz&data=!3d9.9!4d8.8` has no `place_id`,
and its query string carries a `data` parameter embedding the
`!3d9.9!4d8.8` pair; the claim says the extractor must return those
coordinates, but the regex `data=([^&]+)` captures from the FIRST
`data=` occurrence (here inside the value of `a`, capturing just `zz`),
finds no pair there, and the extractor falls through and returns `null`. -/
theorem c8_counterexample_first_data_occurrence :
    parseJSURL "https://google.com/maps?a=data=zz&data=!3d9.9!4d8.8" =
      some ⟨"google.com", "a=data=zz&data=!3d9.9!4d8.8"⟩ ∧
    searchParamsGet ⟨"google.com", "a=data=zz&data=!3d9.9!4d8.8"⟩ "place_id" = none ∧
    searchParamsGet ⟨"google.com", "a=data=zz&data=!3d9.9!4d8.8"⟩ "data" = some "!3d9.9!4d8.8" ∧
    coordPairMatch "!3d9.9!4d8.8" = some (⟨false, 99, 1⟩, ⟨false, 88, 1⟩) ∧
    extractPlaceInfoFromUrl "https://google.com/maps?a=data=zz&data=!3d9.9!4d8.8" = none :=
  ⟨by decide, by decide, by decide, by decide, by decide⟩

/-- C8 (amended): for every canonical URL without a truthy `place_id`
parameter, where the FIRST `data=` occurrence in the URL captures (up to
the next `&`) a blob that percent-decodes successfully and contains the
`!3d<lat>!4d<lng>` marker pair, the extractor returns those coordinates,
paired with the name hint computed from the `/place/` path segment
(`+` to spaces, then percent-decoding) when such a segment is present
and `none` otherwise (`placeNameFromUrl`). -/
theorem c8_data_blob_coordinate_extraction (url : String) (u : JSURL) (d dp : String)
    (p : DecNum × DecNum) (pn : Option String)
    (hu : parseJSURL url = some u)
    (hpid : truthyOptStr (searchParamsGet u "place_id") = false)
    (hd : dataBlobMatch url = some d)
    (hdp : decodeURIComponentJS d = some dp)
    (hcp : coordPairMatch dp = some p)
    (hname : placeNameFromUrl url = Except.ok pn) :
    extractPlaceInfoFromUrl url = some { coordinates := some ⟨p.1, p.2⟩, placeName := pn } := by
  unfold extractPlaceInfoFromUrl extractPlaceInfoCore
  rw [hu]
  simp [hpid, hd, hdp, hcp, hname, Except.map]

/-- C8 witness: a real-shaped place URL with a `data` blob extracts its
`!3d/!4d` coordinates together with the decoded `/place/` name. -/
theorem c8_data_blob_coordinate_extraction_witness :
    extractPlaceInfoFromUrl
        "https://www.google.com/maps/place/Test+Cafe/@1.3521,103.8198,17z/data=!3m1!4b1!3d1.3521!4d103.8198" =
      some { coordinates := some ⟨⟨false, 13521, 4⟩, ⟨false, 1038198, 4⟩⟩,
             placeName := some "Test Cafe" } :=
  c8_data_blob_coordinate_extraction _ ⟨"www.google.com", ""⟩
    "!3m1!4b1!3d1.3521!4d103.8198" "!3m1!4b1!3d1.3521!4d103.8198"
    (⟨false, 13521, 4⟩, ⟨false, 1038198, 4⟩) (some "Test Cafe")
    (by decide) (by decide) (by decide) rfl (by decide) rfl

/-- C10: for every details response with a success status and a result
object, the record built by `fetchPlaceDetails` has a non-null display
name and a non-null address, with the source's fallbacks: a missing name
becomes "Unknown Place", a missing formatted address falls back to the
provider name and then to "Unknown". -/
theorem c10_details_name_address_defaults (api : MapsApi) (pid : String)
    (res : PlaceDetailsResult) (r : PlaceDetailsRecord)
    (hres : api.placeDetails pid = Except.ok res)
    (hst : res.status = "OK") (hr : res.result = some r) :
    ∃ info, fetchPlaceDetails api pid = Except.ok info ∧
      info.name.isSome = true ∧ info.address.isSome = true ∧
      info.name = some (r.name.getD "Unknown Place") ∧
      info.address = some (r.formatted_address.getD (r.name.getD "Unknown")) := by
  rcases fetchPlaceDetails_ok_fields hres hst hr with ⟨info, hf, hn, ha, -, -⟩
  exact ⟨info, hf, by rw [hn]; rfl, by rw [ha]; rfl, hn, ha⟩

/-- C10 witness: a details result with every field omitted yields name
"Unknown Place" and address "Unknown". -/
theorem c10_details_name_address_defaults_witness :
    (fetchPlaceDetails emptyDetailsApi "ChIJtest").toOption.bind GoogleMapsPlaceInfo.name =
      some "Unknown Place" ∧
    (fetchPlaceDetails emptyDetailsApi "ChIJtest").toOption.bind GoogleMapsPlaceInfo.address =
      some "Unknown" := by
  rcases c10_details_name_address_defaults emptyDetailsApi "ChIJtest" emptyDetailsResult {}
      rfl rfl rfl with ⟨info, hf, -, -, hn, ha⟩
  rw [hf]
  constructor
  · rw [show (Except.ok info : Except MapsError GoogleMapsPlaceInfo).toOption = some info from rfl,
      Option.some_bind, hn]
    rfl
  · rw [show (Except.ok info : Except MapsError GoogleMapsPlaceInfo).toOption = some info from rfl,
      Option.some_bind, ha]
    rfl
